import Mathlib

/-!
Shallow embedding of the travelplanner-rag retrieval subsystem.

Sources embedded:
* `src/retrievers/vector_store.py`   (FAISSVectorStore)
* `src/retrievers/knowledge_retrievers.py` (per-category retrievers and filters)
* `src/graph/nodes.py`               (intent analysis, retrieval nodes, aggregator)
* `src/graph/state.py`               (PlannerState field declarations)
* `src/graph/workflow.py`            (graph wiring and `should_replan`)
* `src/config/settings.py`           (relevant constants)

`src/models.py` is absent from the sources; the data types it declares
(`UserPreferences`, `BudgetLevel`, `DietaryRestriction`) are modelled from the
spec where so marked.  Machine floats are modelled by exact rationals; Python
dictionaries with a fixed key set are modelled by records whose `Option` fields
encode key presence.
-/

namespace TravelPlanner

/-- Modelled from the spec (§3, §6): budget tier enum from the missing
`src/models.py`.  `value` is the string payload used in query building. -/
inductive BudgetLevel where
  | BUDGET
  | MODERATE
  | LUXURY
deriving Repr, DecidableEq

def BudgetLevel.value : BudgetLevel → String
  | .BUDGET => "budget"
  | .MODERATE => "moderate"
  | .LUXURY => "luxury"

/-- Modelled from the spec (§3): dietary-restriction enum from the missing
`src/models.py`.  Only `VEGETARIAN` is exercised by the sources; the exact
member set beyond it is immaterial to every claim.  `value` is the string
payload matched against metadata `dietary_options` entries. -/
inductive DietaryRestriction where
  | VEGETARIAN
  | VEGAN
  | GLUTEN_FREE
  | HALAL
  | KOSHER
deriving Repr, DecidableEq

def DietaryRestriction.value : DietaryRestriction → String
  | .VEGETARIAN => "vegetarian"
  | .VEGAN => "vegan"
  | .GLUTEN_FREE => "gluten_free"
  | .HALAL => "halal"
  | .KOSHER => "kosher"

/-- Document metadata: the dictionary keys read by the filter code
(`knowledge_retrievers.py`).  An `Option` field is `none` when the key is
absent from the dictionary, matching Python's `metadata.get`. -/
structure Metadata where
  admission_fee : Option ℚ := none
  category : Option String := none
  tags : Option (List String) := none
  dietary_options : Option (List String) := none
  price_range : Option String := none
  cuisine : Option (List String) := none
  destination : Option String := none
  duration_days : Option ℤ := none
deriving Repr, DecidableEq

/-- The empty metadata dictionary (`{}`). -/
def Metadata.empty : Metadata := {}

instance : Inhabited Metadata := ⟨Metadata.empty⟩

/-- One entry of the list returned by `FAISSVectorStore.similarity_search`:
`{"text": ..., "metadata": ..., "score": ...}`. -/
structure RetrievedDoc where
  text : String
  metadata : Metadata
  score : ℚ
deriving Repr, DecidableEq

instance : Inhabited RetrievedDoc := ⟨⟨"", Metadata.empty, 0⟩⟩

/-- Modelled from the FAISS library (external dependency): a flat L2 index is
its fixed dimension plus the stored vectors in insertion order. -/
structure IndexFlatL2 where
  d : ℕ
  xb : List (List ℚ)
deriving Repr, DecidableEq

/-- `FAISSVectorStore.__init__` state: `dimension`, `index`, `texts`,
`metadatas` (vector_store.py lines 67-78). -/
structure FAISSVectorStore where
  dimension : ℕ
  index : IndexFlatL2
  texts : List String
  metadatas : List Metadata
deriving Repr, DecidableEq

/-- `FAISSVectorStore(dimension)`: fresh empty store. -/
def freshStore (dimension : ℕ) : FAISSVectorStore :=
  { dimension := dimension, index := { d := dimension, xb := [] },
    texts := [], metadatas := [] }

/-- Arguments of one `add_documents` call. -/
structure AddCall where
  texts : List String
  embeddings : List (List ℚ)
  metadatas : Option (List Metadata)
deriving Repr

/-- `FAISSVectorStore.add_documents` (vector_store.py lines 80-95): default the
metadata list to empty dictionaries, append the embeddings to the index and
extend the two parallel lists. -/
def add_documents (st : FAISSVectorStore) (call : AddCall) : FAISSVectorStore :=
  let metadatas := call.metadatas.getD (call.texts.map fun _ => Metadata.empty)
  { st with
    index := { st.index with xb := st.index.xb ++ call.embeddings }
    texts := st.texts ++ call.texts
    metadatas := st.metadatas ++ metadatas }

/-- A sequence of `add_documents` calls applied in order. -/
def applyAdds (st : FAISSVectorStore) (calls : List AddCall) : FAISSVectorStore :=
  calls.foldl add_documents st

/-- Squared Euclidean distance between two vectors (the metric of
`faiss.IndexFlatL2`). -/
def sqDist (q v : List ℚ) : ℚ :=
  ((q.zip v).map fun p => (p.1 - p.2) ^ 2).sum

/-- Modelled from the FAISS library: the padding distance FAISS reports for the
missing entries when the index holds fewer than `k` vectors (`FLT_MAX`). -/
def fltMax : ℚ := 340282346638528859811704183484516925440

/-- Ordering used by the index search: ascending distance, ties broken by
insertion order (the spec's §4.1 stable-ordering contract for the external
FAISS library). -/
def distLe (a b : ℚ × ℤ) : Bool :=
  decide (a.1 < b.1 ∨ (a.1 = b.1 ∧ a.2 ≤ b.2))

/-- Insert into a list sorted by `le`. -/
def insertLe (le : α → α → Bool) (x : α) : List α → List α
  | [] => [x]
  | y :: ys => if le x y then x :: y :: ys else y :: insertLe le x ys

/-- Insertion sort by `le`. -/
def sortLe (le : α → α → Bool) : List α → List α
  | [] => []
  | x :: xs => insertLe le x (sortLe le xs)

/-- Modelled from the FAISS library as contracted in the spec §4.1:
`index.search(q, k)` returns the `k` nearest stored vectors by ascending
squared Euclidean distance (ties by insertion order) as `(distance, label)`
pairs, padded with `(FLT_MAX, -1)` entries when fewer than `k` vectors are
stored. -/
def faissSearch (idx : IndexFlatL2) (q : List ℚ) (k : ℕ) : List (ℚ × ℤ) :=
  let scored := idx.xb.enum.map fun p => (sqDist q p.2, (p.1 : ℤ))
  let top := (sortLe distLe scored).take k
  top ++ List.replicate (k - top.length) (fltMax, -1)

/-- Python list indexing on a list of known length: a negative index counts
from the end (`texts[-1]` is the last element). -/
def pyIndex (n : ℕ) (i : ℤ) : ℕ :=
  (if i < 0 then i + n else i).toNat

/-- `FAISSVectorStore.similarity_search` (vector_store.py lines 97-117): run
the FAISS search, then keep every `(idx, distance)` pair with
`idx < len(self.texts)` — this is the code's literal guard, which a padding
label `-1` also satisfies — and build the result record via Python indexing
with score `1 / (1 + distance)`. -/
def similarity_search (st : FAISSVectorStore) (query_embedding : List ℚ) (k : ℕ) :
    List RetrievedDoc :=
  (faissSearch st.index query_embedding k).filterMap fun di =>
    if di.2 < (st.texts.length : ℤ) then
      some { text := st.texts.getD (pyIndex st.texts.length di.2) ""
             metadata := st.metadatas.getD (pyIndex st.metadatas.length di.2) Metadata.empty
             score := 1 / (1 + di.1) }
    else none

/-- Contents of one persisted store directory.  A `none` component models a
file that is missing or whose contents fail to parse (the corresponding read
in `FAISSVectorStore.load` raises). -/
structure StoreDir where
  indexFile : Option IndexFlatL2
  textsFile : Option (List String)
  metadataFile : Option (List Metadata)

/-- The filesystem as seen through store paths; `none` means the directory
does not exist. -/
def Filesystem : Type := String → Option StoreDir

/-- `FAISSVectorStore.save` (vector_store.py lines 119-133): write the index
blob and the two JSON files.  Serialization of the three components is
lossless (spec §4.1, §6). -/
def save (st : FAISSVectorStore) : StoreDir :=
  { indexFile := some st.index, textsFile := some st.texts,
    metadataFile := some st.metadatas }

/-- `FAISSVectorStore.load` (vector_store.py lines 135-147): read the index
blob, then `texts.json`, then `metadata.json`, assigning each in turn.  The
returned flag is `false` when one of the three reads raises, in which case the
assignments already made are kept (the Python method mutates field by field);
`self.dimension` is never reassigned. -/
def vsLoad (st : FAISSVectorStore) (dir : StoreDir) : FAISSVectorStore × Bool :=
  match dir.indexFile with
  | none => (st, false)
  | some idx =>
    let st1 := { st with index := idx }
    match dir.textsFile with
    | none => (st1, false)
    | some ts =>
      let st2 := { st1 with texts := ts }
      match dir.metadataFile with
      | none => (st2, false)
      | some ms => ({ st2 with metadatas := ms }, true)

/-- `KnowledgeSource` enum (knowledge_retrievers.py lines 19-25). -/
inductive KnowledgeSource where
  | ATTRACTIONS
  | FOOD
  | TRANSPORT
  | TIPS
  | ITINERARIES
deriving Repr, DecidableEq

/-- The string payload of the `KnowledgeSource` str-enum. -/
def KnowledgeSource.value : KnowledgeSource → String
  | .ATTRACTIONS => "attractions"
  | .FOOD => "food"
  | .TRANSPORT => "transport"
  | .TIPS => "tips"
  | .ITINERARIES => "itineraries"

/-- `settings.max_retrieval_results` (settings.py line 37). -/
def max_retrieval_results : ℕ := 10

/-- `settings.vector_store_path` (settings.py line 30). -/
def vector_store_path : String := "./data/vector_stores"

/-- `BaseRetriever.store_path = settings.vector_store_path / source_type.value`
(knowledge_retrievers.py line 47). -/
def storePath (source : KnowledgeSource) : String :=
  vector_store_path ++ "/" ++ source.value

/-- The attractions filter dictionary: the keys read by
`AttractionRetriever._apply_filters`; a `none` field encodes an absent key. -/
structure AttractionFilters where
  max_price : Option ℚ := none
  categories : Option (List String) := none
  required_tags : Option (List String) := none
  excluded_tags : Option (List String) := none
deriving Repr, DecidableEq

/-- Python truthiness of the attractions filter dictionary (`if filters:`),
true exactly when some key is present. -/
def attractionFiltersTruthy (f : AttractionFilters) : Bool :=
  f.max_price.isSome || f.categories.isSome || f.required_tags.isSome ||
    f.excluded_tags.isSome

/-- Budget check of `AttractionRetriever._apply_filters` (lines 128-130):
skip the candidate iff `metadata.get("admission_fee", 0) > filters["max_price"]`. -/
def maxPricePass (f : AttractionFilters) (r : RetrievedDoc) : Bool :=
  match f.max_price with
  | none => true
  | some p => decide (r.metadata.admission_fee.getD 0 ≤ p)

/-- Category check (lines 133-135): skip iff
`metadata.get("category") not in filters["categories"]`; an absent category is
`None`, which is never a member of a list of strings. -/
def categoriesPass (f : AttractionFilters) (r : RetrievedDoc) : Bool :=
  match f.categories with
  | none => true
  | some cs =>
    match r.metadata.category with
    | some c => cs.contains c
    | none => false

/-- Required-tags check (lines 138-141): every required tag must be a member
of `metadata.get("tags", [])`. -/
def requiredTagsPass (f : AttractionFilters) (r : RetrievedDoc) : Bool :=
  match f.required_tags with
  | none => true
  | some req => req.all fun t => (r.metadata.tags.getD []).contains t

/-- Excluded-tags check (lines 144-147): skip iff some excluded tag is a
member of `metadata.get("tags", [])`. -/
def excludedTagsPass (f : AttractionFilters) (r : RetrievedDoc) : Bool :=
  match f.excluded_tags with
  | none => true
  | some exc => !(exc.any fun t => (r.metadata.tags.getD []).contains t)

/-- A candidate survives `AttractionRetriever._apply_filters` iff it passes
the four checks; the loop's `continue` chain is this conjunction. -/
def attractionPasses (f : AttractionFilters) (r : RetrievedDoc) : Bool :=
  maxPricePass f r && categoriesPass f r && requiredTagsPass f r &&
    excludedTagsPass f r

/-- `AttractionRetriever._apply_filters` (knowledge_retrievers.py lines
116-151). -/
def attractionApplyFilters (results : List RetrievedDoc) (f : AttractionFilters) :
    List RetrievedDoc :=
  results.filter (attractionPasses f)

/-- The food filter dictionary: the keys read by
`FoodRetriever._apply_filters`. -/
structure FoodFilters where
  dietary_restrictions : Option (List DietaryRestriction) := none
  budget_level : Option BudgetLevel := none
  cuisines : Option (List String) := none
deriving Repr, DecidableEq

/-- Python truthiness of the food filter dictionary. -/
def foodFiltersTruthy (f : FoodFilters) : Bool :=
  f.dietary_restrictions.isSome || f.budget_level.isSome || f.cuisines.isSome

/-- Dietary check of `FoodRetriever._apply_filters` (lines 172-176): keep iff
at least one requested option is among `metadata.get("dietary_options", [])`
(a str-enum member equals its string value). -/
def dietaryPass (f : FoodFilters) (r : RetrievedDoc) : Bool :=
  match f.dietary_restrictions with
  | none => true
  | some req =>
    req.any fun opt => (r.metadata.dietary_options.getD []).contains opt.value

/-- Budget check (lines 179-186) over
`price_range = metadata.get("price_range", "€€")`: `BUDGET` skips iff the
price range is outside `["€", "€€"]`, `LUXURY` skips iff it is `"€"`. -/
def budgetPass (f : FoodFilters) (r : RetrievedDoc) : Bool :=
  match f.budget_level with
  | none => true
  | some b =>
    let pr := r.metadata.price_range.getD "€€"
    if b = BudgetLevel.BUDGET then pr == "€" || pr == "€€"
    else if b = BudgetLevel.LUXURY then !(pr == "€")
    else true

/-- Cuisine check (lines 189-192): keep iff at least one requested cuisine is
among `metadata.get("cuisine", [])`. -/
def cuisinesPass (f : FoodFilters) (r : RetrievedDoc) : Bool :=
  match f.cuisines with
  | none => true
  | some cs => cs.any fun c => (r.metadata.cuisine.getD []).contains c

/-- A candidate survives `FoodRetriever._apply_filters` iff it passes the
three checks. -/
def foodPasses (f : FoodFilters) (r : RetrievedDoc) : Bool :=
  dietaryPass f r && budgetPass f r && cuisinesPass f r

/-- `FoodRetriever._apply_filters` (knowledge_retrievers.py lines 160-196). -/
def foodApplyFilters (results : List RetrievedDoc) (f : FoodFilters) :
    List RetrievedDoc :=
  results.filter (foodPasses f)

/-- The itinerary filter dictionary: the keys read by
`ItineraryRetriever._apply_filters`. -/
structure ItineraryFilters where
  destination : Option String := none
  duration_days : Option ℤ := none
deriving Repr, DecidableEq

/-- Python truthiness of the itinerary filter dictionary. -/
def itineraryFiltersTruthy (f : ItineraryFilters) : Bool :=
  f.destination.isSome || f.duration_days.isSome

/-- A candidate survives `ItineraryRetriever._apply_filters` (lines 212-238):
exact destination match (an absent destination is `None`, never equal to the
requested string) and duration within one day of the target, over
`metadata.get("duration_days", 0)`. -/
def itineraryPasses (f : ItineraryFilters) (r : RetrievedDoc) : Bool :=
  (match f.destination with
   | none => true
   | some d =>
     match r.metadata.destination with
     | some d0 => d0 == d
     | none => false) &&
  (match f.duration_days with
   | none => true
   | some target => decide ((r.metadata.duration_days.getD 0 - target).natAbs ≤ 1))

/-- `ItineraryRetriever._apply_filters`. -/
def itineraryApplyFilters (results : List RetrievedDoc) (f : ItineraryFilters) :
    List RetrievedDoc :=
  results.filter (itineraryPasses f)

/-- `BaseRetriever.retrieve` (knowledge_retrievers.py lines 49-79): embed the
query, over-fetch `2k` candidates, apply the category filter when the filter
dictionary is truthy, and truncate to `k`.  `applyF` is the category's
`_apply_filters` with its filter record, `truthy` the dictionary's
truthiness. -/
def baseRetrieve (applyF : List RetrievedDoc → List RetrievedDoc) (truthy : Bool)
    (st : FAISSVectorStore) (embed : String → List ℚ) (query : String) (k : ℕ) :
    List RetrievedDoc :=
  let results := similarity_search st (embed query) (k * 2)
  let results := if truthy then applyF results else results
  results.take k

/-- `AttractionRetriever.retrieve`. -/
def attractionRetrieve (st : FAISSVectorStore) (embed : String → List ℚ)
    (query : String) (k : ℕ) (f : AttractionFilters) : List RetrievedDoc :=
  baseRetrieve (attractionApplyFilters · f) (attractionFiltersTruthy f) st embed query k

/-- `FoodRetriever.retrieve`. -/
def foodRetrieve (st : FAISSVectorStore) (embed : String → List ℚ)
    (query : String) (k : ℕ) (f : FoodFilters) : List RetrievedDoc :=
  baseRetrieve (foodApplyFilters · f) (foodFiltersTruthy f) st embed query k

/-- `TipsRetriever.retrieve`: the base class applies no filter (`_apply_filters`
is the identity), and the workflow passes the tips retriever an empty (falsy)
filter dictionary. -/
def tipsRetrieve (st : FAISSVectorStore) (embed : String → List ℚ)
    (query : String) (k : ℕ) : List RetrievedDoc :=
  baseRetrieve id false st embed query k

/-- `ItineraryRetriever.retrieve`. -/
def itineraryRetrieve (st : FAISSVectorStore) (embed : String → List ℚ)
    (query : String) (k : ℕ) (f : ItineraryFilters) : List RetrievedDoc :=
  baseRetrieve (itineraryApplyFilters · f) (itineraryFiltersTruthy f) st embed query k

/-- `BaseRetriever.load` (knowledge_retrievers.py lines 93-107): `False` when
the store path does not exist; otherwise delegate to
`FAISSVectorStore.load`, catching any exception and returning `False`
(the partially assigned store is kept).  The function is total: no exception
escapes. -/
def retrieverLoad (fs : Filesystem) (path : String) (st : FAISSVectorStore) :
    Bool × FAISSVectorStore :=
  match fs path with
  | none => (false, st)
  | some dir =>
    let r := vsLoad st dir
    (r.2, r.1)

/-- `MultiSourceRetriever` (knowledge_retrievers.py lines 241-249): one store
per category. -/
structure MultiSourceRetriever where
  attractions : FAISSVectorStore
  food : FAISSVectorStore
  tips : FAISSVectorStore
  itineraries : FAISSVectorStore

/-- `MultiSourceRetriever.load_all` (lines 288-293): load every category's
persisted index in turn; each call's outcome is its own. -/
def load_all (fs : Filesystem) (m : MultiSourceRetriever) : MultiSourceRetriever :=
  { attractions := (retrieverLoad fs (storePath .ATTRACTIONS) m.attractions).2
    food := (retrieverLoad fs (storePath .FOOD) m.food).2
    tips := (retrieverLoad fs (storePath .TIPS) m.tips).2
    itineraries := (retrieverLoad fs (storePath .ITINERARIES) m.itineraries).2 }

/-- A calendar date; models the `datetime` values held by `UserPreferences`. -/
structure Date where
  year : ℤ
  month : ℤ
  day : ℤ
deriving Repr, DecidableEq

/-- Day number of a proleptic Gregorian date (days since the Unix epoch), so
that Python's `(end_date - start_date).days` is the difference of day
numbers. -/
def Date.toOrdinal (dt : Date) : ℤ :=
  let y : ℤ := if dt.month ≤ 2 then dt.year - 1 else dt.year
  let era : ℤ := (if 0 ≤ y then y else y - 399) / 400
  let yoe : ℤ := y - era * 400
  let mp : ℤ := (dt.month + 9) % 12
  let doy : ℤ := (153 * mp + 2) / 5 + dt.day - 1
  let doe : ℤ := yoe * 365 + yoe / 4 - yoe / 100 + doy
  era * 146097 + doe - 719468

/-- Modelled from the spec (§3): `UserPreferences` from the missing
`src/models.py`, with exactly the fields the embedded nodes read. -/
structure UserPreferences where
  destinations : List String
  start_date : Date
  end_date : Date
  budget_level : BudgetLevel
  dietary_restrictions : List DietaryRestriction
  interests : List String
  avoid : List String
  pace : String
  walking_preference : Bool
  group_type : Option String
deriving Repr, DecidableEq

/-- `(prefs.end_date - prefs.start_date).days + 1`, the duration computation
used at nodes.py lines 37, 102, 185 and 234. -/
def durationDays (prefs : UserPreferences) : ℤ :=
  (prefs.end_date.toOrdinal - prefs.start_date.toOrdinal) + 1

/-- The `parsed_intent` dictionary built by `IntentAnalyzerNode.__call__`
(nodes.py lines 35-45). -/
structure ParsedIntent where
  destinations : List String
  duration_days : ℤ
  budget_level : BudgetLevel
  dietary_needs : List DietaryRestriction
  interests : List String
  avoid_list : List String
  pace : String
  walkable : Bool
  group_type : Option String
deriving Repr, DecidableEq

/-- The `filters` dictionary of the retrieval strategy (nodes.py lines
74-106): keys `ATTRACTIONS`, `FOOD` and `ITINERARIES` are always present,
`TIPS` is never a key. -/
structure StrategyFilters where
  attractions : AttractionFilters
  food : FoodFilters
  itineraries : ItineraryFilters
deriving Repr, DecidableEq

/-- The `retrieval_strategy` dictionary (nodes.py lines 48-52). -/
structure RetrievalStrategy where
  sources : List KnowledgeSource
  filters : StrategyFilters
  priority : List String
deriving Repr, DecidableEq

/-- `IntentAnalyzerNode._determine_sources` (nodes.py lines 61-72): always all
four categories, itineraries appended last. -/
def determineSources (_prefs : UserPreferences) : List KnowledgeSource :=
  [.ATTRACTIONS, .FOOD, .TIPS] ++ [.ITINERARIES]

/-- `IntentAnalyzerNode._build_filters` (nodes.py lines 74-106).  The food
dictionary always contains the `dietary_restrictions` and `budget_level`
keys; the attraction keys are conditional on the preferences. -/
def buildFilters (prefs : UserPreferences) : StrategyFilters :=
  { attractions :=
      { max_price :=
          if prefs.budget_level = .BUDGET then some 10
          else if prefs.budget_level = .MODERATE then some 25
          else none
        categories := none
        excluded_tags := if prefs.avoid ≠ [] then some prefs.avoid else none
        required_tags := if prefs.interests ≠ [] then some prefs.interests else none }
    food :=
      { dietary_restrictions := some prefs.dietary_restrictions
        budget_level := some prefs.budget_level
        cuisines := none }
    itineraries :=
      { destination := none
        duration_days := some (durationDays prefs) } }

/-- `IntentAnalyzerNode._determine_priority` (nodes.py lines 108-121). -/
def determinePriority (prefs : UserPreferences) : List String :=
  (if prefs.budget_level = .BUDGET then ["cost"] else []) ++
  (if prefs.walking_preference then ["proximity"] else []) ++
  (if prefs.interests.contains "food" then ["culinary"] else [])

/-- `IntentAnalyzerNode.__call__` (nodes.py lines 23-59): the parsed intent
and the retrieval strategy written to the state. -/
def analyzeIntent (prefs : UserPreferences) : ParsedIntent × RetrievalStrategy :=
  ({ destinations := prefs.destinations
     duration_days := durationDays prefs
     budget_level := prefs.budget_level
     dietary_needs := prefs.dietary_restrictions
     interests := prefs.interests
     avoid_list := prefs.avoid
     pace := prefs.pace
     walkable := prefs.walking_preference
     group_type := prefs.group_type },
   { sources := determineSources prefs
     filters := buildFilters prefs
     priority := determinePriority prefs })

/-- `ParallelRetrieverNode._build_query` (nodes.py lines 168-188). -/
def buildQuery (prefs : UserPreferences) (source : KnowledgeSource) : String :=
  let destination := String.intercalate ", " prefs.destinations
  match source with
  | .ATTRACTIONS =>
    let interests :=
      if prefs.interests ≠ [] then String.intercalate ", " prefs.interests
      else "popular attractions"
    destination ++ " " ++ interests ++ " places to visit"
  | .FOOD =>
    let dietary := String.intercalate ", " (prefs.dietary_restrictions.map (·.value))
    destination ++ " " ++ prefs.budget_level.value ++ " " ++ dietary ++ " restaurants"
  | .TIPS =>
    destination ++ " travel tips local advice best time to visit"
  | .ITINERARIES =>
    destination ++ " " ++ toString (durationDays prefs) ++ " day itinerary " ++
      prefs.budget_level.value
  | .TRANSPORT => destination

/-- The state key a retrieval node writes:
`context_key = f"{self.source.value}_context"` (nodes.py line 163). -/
def contextKey (source : KnowledgeSource) : String :=
  source.value ++ "_context"

/-- `ParallelRetrieverNode.__call__` (nodes.py lines 136-166) for one category:
the list of `(state key, value)` updates the node returns.  The node reads the
strategy's filter dictionary for its source (`{}` when the source has no entry,
as for `TIPS`), retrieves with `k = settings.max_retrieval_results`, and writes
the single key `contextKey source`. -/
def parallelRetrieverNode (stores : KnowledgeSource → FAISSVectorStore)
    (embed : String → List ℚ) (source : KnowledgeSource)
    (strategy : RetrievalStrategy) (prefs : UserPreferences) :
    List (String × List RetrievedDoc) :=
  let query := buildQuery prefs source
  let results :=
    match source with
    | .ATTRACTIONS =>
      attractionRetrieve (stores source) embed query max_retrieval_results
        strategy.filters.attractions
    | .FOOD =>
      foodRetrieve (stores source) embed query max_retrieval_results
        strategy.filters.food
    | .TIPS => tipsRetrieve (stores source) embed query max_retrieval_results
    | .ITINERARIES =>
      itineraryRetrieve (stores source) embed query max_retrieval_results
        strategy.filters.itineraries
    | .TRANSPORT => tipsRetrieve (stores source) embed query max_retrieval_results
  [(contextKey source, results)]

/-- The category result fields `PlannerState` declares (state.py lines 23-27). -/
def declaredContextFields : List String :=
  ["attractions_context", "food_context", "transport_context", "tips_context",
   "itinerary_context"]

/-- The state keys `ContextAggregatorNode.__call__` reads (nodes.py lines
204-207). -/
def aggregatorReadKeys : List String :=
  ["attractions_context", "food_context", "tips_context", "itinerary_context"]

/-- `state.get(key, [])` over the merged update list produced by the retrieval
nodes: the value of the first update for `key`, or `[]`. -/
def lookupContext (updates : List (String × List RetrievedDoc)) (key : String) :
    List RetrievedDoc :=
  ((updates.find? fun p => p.1 == key).map Prod.snd).getD []

/-- `"\n".join`, as `str.join` computes it. -/
def joinNl : List String → String
  | [] => ""
  | [s] => s
  | s :: rest => s ++ "\n" ++ joinNl rest

/-- Two-decimal rendering of a score (`f"{score:.2f}"`).  The model rounds
half up where CPython rounds the underlying binary float to even; no claim
depends on the rendered digits. -/
def formatScore (q : ℚ) : String :=
  let cents : ℤ := (q * 100 + 1 / 2).floor
  let whole := cents / 100
  let frac := (cents % 100).natAbs
  toString whole ++ "." ++ (if frac < 10 then "0" else "") ++ toString frac

/-- One JSON member, `"key": value`. -/
def jsonMember (key value : String) : String :=
  "\"" ++ key ++ "\": " ++ value

/-- A JSON string literal (the metadata strings in play contain no characters
needing escapes). -/
def jsonStr (s : String) : String := "\"" ++ s ++ "\""

/-- A JSON array of strings. -/
def jsonStrList (l : List String) : String :=
  "[" ++ String.intercalate ", " (l.map jsonStr) ++ "]"

/-- `json.dumps(metadata)` on the modelled metadata record, rendering the
present keys.  CPython emits keys in dictionary insertion order, which the
record cannot recover; the spec pins no rendering, and no claim depends on
this string. -/
def metadataJson (m : Metadata) : String :=
  let members : List (Option String) :=
    [m.admission_fee.map fun q => jsonMember "admission_fee" (toString q),
     m.category.map fun s => jsonMember "category" (jsonStr s),
     m.tags.map fun l => jsonMember "tags" (jsonStrList l),
     m.dietary_options.map fun l => jsonMember "dietary_options" (jsonStrList l),
     m.price_range.map fun s => jsonMember "price_range" (jsonStr s),
     m.cuisine.map fun l => jsonMember "cuisine" (jsonStrList l),
     m.destination.map fun s => jsonMember "destination" (jsonStr s),
     m.duration_days.map fun n => jsonMember "duration_days" (toString n)]
  "\x7b" ++ String.intercalate ", " (members.filterMap id) ++ "\x7d"

/-- `ContextAggregatorNode._build_context_string` (nodes.py lines 222-268). -/
def buildContextString (attractions food tips itineraries : List RetrievedDoc)
    (prefs : UserPreferences) : String :=
  let duration := durationDays prefs
  let group :=
    match prefs.group_type with
    | some g => if g = "" then "N/A" else g
    | none => "N/A"
  let head : List String :=
    ["## Trip Planning Context\n",
     "Destinations: " ++ String.intercalate ", " prefs.destinations,
     "Duration: " ++ toString duration ++ " days",
     "Budget: " ++ prefs.budget_level.value,
     "Group: " ++ group ++ "\n"]
  let attractionsSection : List String :=
    if attractions ≠ [] then
      "## Available Attractions" ::
        ((attractions.take 10).enum.map fun p =>
          [toString (p.1 + 1) ++ ". " ++ p.2.text,
           "   Score: " ++ formatScore p.2.score,
           "   Metadata: " ++ metadataJson p.2.metadata ++ "\n"]).flatten
    else []
  let foodSection : List String :=
    if food ≠ [] then
      "## Food Options" ::
        ((food.take 10).enum.map fun p =>
          [toString (p.1 + 1) ++ ". " ++ p.2.text,
           "   Score: " ++ formatScore p.2.score ++ "\n"]).flatten
    else []
  let tipsSection : List String :=
    if tips ≠ [] then
      "## Local Tips & Advice" ::
        ((tips.take 5).map fun item => "- " ++ item.text ++ "\n")
    else []
  let itinerariesSection : List String :=
    if itineraries ≠ [] then
      "## Similar Past Itineraries" ::
        ((itineraries.take 3).enum.map fun p =>
          toString (p.1 + 1) ++ ". " ++ p.2.text.take 200 ++ "...\n")
    else []
  joinNl (head ++ attractionsSection ++ foodSection ++ tipsSection ++
    itinerariesSection)

/-- What the workflow run leaves in the state fields the claims read. -/
structure WorkflowOutput where
  parsed_intent : ParsedIntent
  retrieval_strategy : RetrievalStrategy
  contextUpdates : List (String × List RetrievedDoc)
  aggregated_context : String

/-- One run of the compiled graph (workflow.py lines 34-74): intent analysis,
fan-out of the four retrieval nodes whose keyed updates merge into the shared
state (the writes are disjoint by key, so the merge is order-independent),
then `ContextAggregatorNode.__call__` (nodes.py lines 194-220), which reads
the four `aggregatorReadKeys` with `state.get(key, [])` and formats the
context block. -/
def runWorkflow (stores : KnowledgeSource → FAISSVectorStore)
    (embed : String → List ℚ) (prefs : UserPreferences) : WorkflowOutput :=
  let intent := analyzeIntent prefs
  let strategy := intent.2
  let updates :=
    parallelRetrieverNode stores embed .ATTRACTIONS strategy prefs ++
    parallelRetrieverNode stores embed .FOOD strategy prefs ++
    parallelRetrieverNode stores embed .TIPS strategy prefs ++
    parallelRetrieverNode stores embed .ITINERARIES strategy prefs
  let attractions := lookupContext updates "attractions_context"
  let food := lookupContext updates "food_context"
  let tips := lookupContext updates "tips_context"
  let itineraries := lookupContext updates "itinerary_context"
  { parsed_intent := intent.1
    retrieval_strategy := strategy
    contextUpdates := updates
    aggregated_context :=
      buildContextString attractions food tips itineraries prefs }

/-- The replanning-relevant slice of `PlannerState`; `Option` fields model
`state.get` with its default. -/
structure ReplanStateView where
  needs_replanning : Option Bool
  iteration_count : Option ℕ
deriving Repr, DecidableEq

/-- `should_replan` (workflow.py lines 17-31). -/
def should_replan (st : ReplanStateView) : String :=
  if st.needs_replanning.getD false then
    if st.iteration_count.getD 0 < 3 then "generate" else "end"
  else "end"

/-- The edges `build_planning_graph` registers (workflow.py lines 59-71);
`"__end__"` is the graph library's terminal sentinel (`END`).  The function
calls `add_edge` only — `add_conditional_edges` is never called, so
`should_replan` is not attached to the graph. -/
def graphEdges : List (String × String) :=
  [("analyze_intent", "retrieve_attractions"),
   ("analyze_intent", "retrieve_food"),
   ("analyze_intent", "retrieve_tips"),
   ("analyze_intent", "retrieve_itineraries"),
   ("retrieve_attractions", "aggregate_context"),
   ("retrieve_food", "aggregate_context"),
   ("retrieve_tips", "aggregate_context"),
   ("retrieve_itineraries", "aggregate_context"),
   ("aggregate_context", "__end__")]

/-- The entry point (workflow.py line 55). -/
def entryPoint : String := "analyze_intent"

/-- Successors of a node in the built graph. -/
def successorsOf (n : String) : List String :=
  (graphEdges.filter fun e => e.1 == n).map Prod.snd

/-- The nodes control can move to after `aggregate_context` runs, as a
function of the replanning-relevant state.  The built graph attaches no
conditional edge, so the successor set is the unconditional one, independent
of the state. -/
def nextAfterAggregation (_st : ReplanStateView) : List String :=
  successorsOf "aggregate_context"

/-! Concrete fixtures used by counterexamples and witnesses. -/

/-- A store holding a single document whose embedding is the origin of `ℚ²`. -/
def exStore : FAISSVectorStore :=
  { dimension := 2, index := { d := 2, xb := [[0, 0]] },
    texts := ["only-doc"], metadatas := [Metadata.empty] }

/-- A state that requests replanning with iteration count `0`. -/
def replanReadyState : ReplanStateView :=
  { needs_replanning := some true, iteration_count := some 0 }

/-- The §8 end-to-end scenario preferences; the fields the scenario leaves
open stay parameters. -/
def c5Prefs (avoid : List String) (pace : String) (walk : Bool)
    (group : Option String) : UserPreferences :=
  { destinations := ["Paris"]
    start_date := ⟨2024, 6, 15⟩
    end_date := ⟨2024, 6, 17⟩
    budget_level := .BUDGET
    dietary_restrictions := [.VEGETARIAN]
    interests := ["art", "food"]
    avoid := avoid
    pace := pace
    walking_preference := walk
    group_type := group }

/-- Preferences of a user with no dietary restrictions. -/
def c10Prefs : UserPreferences :=
  { destinations := ["Paris"]
    start_date := ⟨2024, 6, 15⟩
    end_date := ⟨2024, 6, 17⟩
    budget_level := .MODERATE
    dietary_restrictions := []
    interests := ["art"]
    avoid := []
    pace := "moderate"
    walking_preference := true
    group_type := none }

/-- Attractions filter requiring tag `"a"` and excluding tag `"x"`. -/
def c6Filters : AttractionFilters :=
  { required_tags := some ["a"], excluded_tags := some ["x"] }

/-- A candidate with no metadata keys at all (so no tags). -/
def c6Doc : RetrievedDoc := ⟨"bare", Metadata.empty, 0⟩

/-- Food filter of a vegetarian budget traveller. -/
def c7Filters : FoodFilters :=
  { dietary_restrictions := some [.VEGETARIAN], budget_level := some .BUDGET }

/-- A vegetarian-friendly restaurant in the most expensive price band. -/
def c7Doc : RetrievedDoc :=
  ⟨"pricey", { dietary_options := some ["vegetarian", "vegan"],
               price_range := some "€€€" }, 0⟩

/-- A filesystem with no persisted stores at all. -/
def emptyFs : Filesystem := fun _ => none

/-- A filesystem whose every directory exists but has an unreadable index
blob. -/
def corruptFs : Filesystem :=
  fun _ => some { indexFile := none, textsFile := some [], metadataFile := some [] }

/-- A coordinator over four fresh stores. -/
def freshMulti : MultiSourceRetriever :=
  { attractions := freshStore 4, food := freshStore 4,
    tips := freshStore 4, itineraries := freshStore 4 }

/-! Helper lemmas. -/

/-- Appending strings appends their character data. -/
theorem string_data_append (s t : String) : (s ++ t).data = s.data ++ t.data := rfl

/-- `"\n".join` on a list with at least two entries starts with the first
entry followed by a newline. -/
theorem joinNl_data_cons₂ (a b : String) (l : List String) :
    ∃ t, (joinNl (a :: b :: l)).data = a.data ++ t := by
  refine ⟨'\n' :: (joinNl (b :: l)).data, ?_⟩
  show (a ++ "\n" ++ joinNl (b :: l)).data = _
  rw [string_data_append, string_data_append, List.append_assoc]
  rfl

/-- `add_documents` never changes the `dimension` attribute. -/
theorem applyAdds_dimension (st : FAISSVectorStore) (calls : List AddCall) :
    (applyAdds st calls).dimension = st.dimension := by
  induction calls generalizing st with
  | nil => rfl
  | cons c cs ih => simpa [applyAdds, add_documents] using ih (add_documents st c)

/-- A food filter whose `dietary_restrictions` key holds the empty list
rejects every candidate. -/
theorem foodApplyFilters_empty_dietary (results : List RetrievedDoc)
    (f : FoodFilters) (h : f.dietary_restrictions = some []) :
    foodApplyFilters results f = [] := by
  rw [foodApplyFilters, List.filter_eq_nil_iff]
  intro r _
  simp [foodPasses, dietaryPass, h]

/-! Claim theorems. -/

/-- C1: the claim that every retrieval node writes its category's declared
result field fails for the itineraries node: nodes.py line 163 computes the
key `"itineraries_context"`, which is neither a declared `PlannerState` field
(state.py) nor one of the four keys the aggregation node reads (nodes.py lines
204-207); consequently the aggregator's `itinerary_context` read always
yields the empty default, so the itineraries node's output is never consumed.
The other three nodes do write exactly the declared field the aggregator
reads. -/
theorem c1_itineraries_context_key_mismatch :
    contextKey KnowledgeSource.ITINERARIES = "itineraries_context" ∧
    "itineraries_context" ∉ declaredContextFields ∧
    "itineraries_context" ∉ aggregatorReadKeys ∧
    (∀ stores embed prefs,
      lookupContext (runWorkflow stores embed prefs).contextUpdates
        "itinerary_context" = []) ∧
    contextKey KnowledgeSource.ATTRACTIONS ∈ aggregatorReadKeys ∧
    contextKey KnowledgeSource.FOOD ∈ aggregatorReadKeys ∧
    contextKey KnowledgeSource.TIPS ∈ aggregatorReadKeys := by
  refine ⟨rfl, by decide, by decide, ?_, by decide, by decide, by decide⟩
  intro stores embed prefs
  rfl

/-- C2: at a store holding one document, `similarity_search` with `k = 2`
returns two results rather than `min 2 1 = 1`: the FAISS padding label `-1`
satisfies the guard `idx < len(self.texts)` and Python's negative indexing
turns it into a duplicate of the last stored document. -/
theorem c2_bounded_output_violation :
    exStore.texts.length = 1 ∧
    min 2 exStore.texts.length = 1 ∧
    (similarity_search exStore [0, 0] 2).length = 2 ∧
    (similarity_search exStore [0, 0] 2).map (fun r => r.text)
      = ["only-doc", "only-doc"] := by
  refine ⟨rfl, rfl, by decide, by decide⟩

/-- C3: in the same run, the second (padding) result reports the score
`1 / (1 + FLT_MAX)` although the document it names is the stored one, whose
squared distance to the query is `0`, so its score should be
`1 / (1 + 0) = 1`; the claimed score-distance relation fails. -/
theorem c3_score_distance_violation :
    (similarity_search exStore [0, 0] 2).map (fun r => r.text)
      = ["only-doc", "only-doc"] ∧
    sqDist [0, 0] (exStore.index.xb.getD 0 []) = 0 ∧
    ((similarity_search exStore [0, 0] 2).getD 1 default).score
      = 1 / (1 + fltMax) ∧
    1 / (1 + fltMax) ≠ 1 / (1 + (0 : ℚ)) := by
  refine ⟨by decide, ?_, rfl, by norm_num [fltMax]⟩
  norm_num [sqDist, exStore]

/-- C4: persisting any sequence of `add_documents` calls and restoring into a
fresh store of the same dimension succeeds and yields identical
`similarity_search` results for every query vector and `k`. -/
theorem c4_persist_restore_round_trip (dim : ℕ) (calls : List AddCall)
    (q : List ℚ) (k : ℕ) :
    (vsLoad (freshStore dim) (save (applyAdds (freshStore dim) calls))).2 = true ∧
    similarity_search
        (vsLoad (freshStore dim) (save (applyAdds (freshStore dim) calls))).1 q k
      = similarity_search (applyAdds (freshStore dim) calls) q k := by
  have hdim := applyAdds_dimension (freshStore dim) calls
  rcases hst : applyAdds (freshStore dim) calls with ⟨d, ix, ts, ms⟩
  rw [hst] at hdim
  simp only [freshStore] at hdim
  subst hdim
  exact ⟨rfl, rfl⟩

/-- C8 counterexample: in a state with `needs_replanning = true` and
`iteration_count = 0 < 3` the claim requires control to return to a
generation stage, but the compiled graph's only edge out of
`aggregate_context` is the unconditional edge to the terminal sentinel:
`should_replan` would return `"generate"`, yet `build_planning_graph` never
attaches it, so the workflow terminates. -/
theorem c8_counterexample :
    replanReadyState.needs_replanning.getD false = true ∧
    replanReadyState.iteration_count.getD 0 < 3 ∧
    should_replan replanReadyState = "generate" ∧
    nextAfterAggregation replanReadyState = ["__end__"] ∧
    "generate" ∉ nextAfterAggregation replanReadyState := by
  refine ⟨rfl, by decide, rfl, by decide, by decide⟩

/-- C8 amended: `should_replan` computes `"generate"` exactly when the state
has `needs_replanning = true` and `iteration_count < 3` and `"end"` otherwise,
but `build_planning_graph` never attaches this conditional edge: for every
state the successor of `aggregate_context` is the terminal sentinel alone and
no node of the built graph has an edge into a generation stage, so the
workflow always terminates directly after aggregation and executes `0 ≤ 3`
replanning cycles. -/
theorem c8_amended (st : ReplanStateView) :
    (should_replan st = "generate" ↔
      st.needs_replanning.getD false = true ∧ st.iteration_count.getD 0 < 3) ∧
    (should_replan st ≠ "generate" → should_replan st = "end") ∧
    nextAfterAggregation st = ["__end__"] ∧
    (∀ n, "generate" ∉ successorsOf n) := by
  refine ⟨?_, ?_, rfl, ?_⟩
  · rw [should_replan]
    rcases st.needs_replanning.getD false with _ | _ <;>
      rcases Nat.lt_or_ge (st.iteration_count.getD 0) 3 with h | h <;>
      simp [h, Nat.not_lt.mpr, Nat.not_lt_of_le h]
  · rw [should_replan]
    rcases st.needs_replanning.getD false with _ | _ <;>
      rcases Nat.lt_or_ge (st.iteration_count.getD 0) 3 with h | h <;>
      simp [h, Nat.not_lt_of_le h]
  · intro n hmem
    rw [successorsOf] at hmem
    rcases List.mem_map.mp hmem with ⟨e, he, h2⟩
    have he' := List.mem_filter.mp he |>.1
    revert h2
    rcases List.mem_cons.mp he' with h | h
    · subst h; decide
    iterate 8
      rcases List.mem_cons.mp h with h3 | h
      case _ => subst h3; decide
    simp at h

/-- C8 witness: the amended theorem applied at a state with no replanning
request. -/
theorem c8_amended_witness :
    should_replan { needs_replanning := none, iteration_count := none } = "end" ∧
    nextAfterAggregation { needs_replanning := none, iteration_count := none }
      = ["__end__"] := by
  refine ⟨(c8_amended _).2.1 ?_, (c8_amended ⟨none, none⟩).2.2.1⟩
  decide

/-- C5: for the §8 scenario preferences (Paris, 2024-06-15 to 2024-06-17,
BUDGET, vegetarian, interests art and food — the remaining fields arbitrary),
every workflow run computes `duration_days = 3`, a strategy over all four
knowledge categories whose attractions filter has `max_price = 10.0` and
required tags containing `"art"` and `"food"`, and a non-empty aggregated
context beginning with the literal heading `"## Trip Planning Context"`,
whatever the stores and the embedding model return. -/
theorem c5_end_to_end_scenario (stores : KnowledgeSource → FAISSVectorStore)
    (embed : String → List ℚ) (avoid : List String) (pace : String)
    (walk : Bool) (group : Option String) :
    (runWorkflow stores embed (c5Prefs avoid pace walk group)).parsed_intent.duration_days
        = 3 ∧
    (runWorkflow stores embed (c5Prefs avoid pace walk group)).retrieval_strategy.sources
        = [.ATTRACTIONS, .FOOD, .TIPS, .ITINERARIES] ∧
    (runWorkflow stores embed
        (c5Prefs avoid pace walk group)).retrieval_strategy.filters.attractions.max_price
        = some 10 ∧
    (∃ tags,
      (runWorkflow stores embed
          (c5Prefs avoid pace walk group)).retrieval_strategy.filters.attractions.required_tags
          = some tags ∧ "art" ∈ tags ∧ "food" ∈ tags) ∧
    (∃ rest : List Char,
      (runWorkflow stores embed (c5Prefs avoid pace walk group)).aggregated_context.data
        = "## Trip Planning Context".data ++ rest) ∧
    (runWorkflow stores embed (c5Prefs avoid pace walk group)).aggregated_context ≠ "" := by
  refine ⟨rfl, rfl, rfl, ⟨["art", "food"], rfl, by decide, by decide⟩, ?_, ?_⟩
  · obtain ⟨t, ht⟩ :
        ∃ t, (runWorkflow stores embed (c5Prefs avoid pace walk group)).aggregated_context.data
          = ("## Trip Planning Context\n").data ++ t :=
      joinNl_data_cons₂ _ _ _
    refine ⟨'\n' :: t, ?_⟩
    rw [ht]
    have hsplit : ("## Trip Planning Context\n").data
        = "## Trip Planning Context".data ++ ['\n'] := rfl
    rw [hsplit, List.append_assoc]
    rfl
  · intro h
    obtain ⟨t, ht⟩ :
        ∃ t, (runWorkflow stores embed (c5Prefs avoid pace walk group)).aggregated_context.data
          = ("## Trip Planning Context\n").data ++ t :=
      joinNl_data_cons₂ _ _ _
    rw [h] at ht
    simp at ht

/-- C6: under any attractions filter with `required_tags` present, a candidate
missing one required tag never survives `_apply_filters`, whatever the other
filter keys say; and a candidate with an empty (or absent) tags list always
passes the excluded-tags check, for any `excluded_tags` value. -/
theorem c6_required_conjunction_excluded_vacuous (results : List RetrievedDoc)
    (f : AttractionFilters) (r : RetrievedDoc) :
    (∀ req, f.required_tags = some req →
      (∃ t ∈ req, t ∉ r.metadata.tags.getD []) →
      r ∉ attractionApplyFilters results f) ∧
    (r.metadata.tags.getD [] = [] → excludedTagsPass f r = true) := by
  constructor
  · rintro req hreq ⟨t, htmem, htabs⟩ hmem
    have hp := (List.mem_filter.mp hmem).2
    rw [attractionPasses] at hp
    have hreqpass : requiredTagsPass f r = true := by
      rcases Bool.and_eq_true_iff.mp hp with ⟨h1, _⟩
      rcases Bool.and_eq_true_iff.mp h1 with ⟨h2, h3⟩
      exact h3
    rw [requiredTagsPass, hreq, List.all_eq_true] at hreqpass
    exact htabs (by simpa using hreqpass t htmem)
  · intro htags
    rw [excludedTagsPass]
    rcases f.excluded_tags with _ | exc
    · rfl
    · simp [htags]

/-- C6 witness: the concrete candidate `c6Doc` (no metadata keys) is rejected
by the filter requiring tag `"a"` even from a singleton candidate list, and
passes the excluded-tags check of the same filter. -/
theorem c6_witness :
    c6Doc ∉ attractionApplyFilters [c6Doc] c6Filters ∧
    excludedTagsPass c6Filters c6Doc = true :=
  ⟨(c6_required_conjunction_excluded_vacuous [c6Doc] c6Filters c6Doc).1
      ["a"] rfl (by decide),
   (c6_required_conjunction_excluded_vacuous [c6Doc] c6Filters c6Doc).2 rfl⟩

/-- C7: membership in the filtered food list is membership plus the
conjunction of checks; the dietary check is disjunctive (one requested option
present suffices); with `BUDGET` the budget check rejects exactly the
candidates whose price band (one of the three schema bands, default `"€€"`)
is `"€€€"`, and with `LUXURY` exactly those whose band is `"€"`. -/
theorem c7_food_filter_semantics (results : List RetrievedDoc)
    (f : FoodFilters) (r : RetrievedDoc) :
    (r ∈ foodApplyFilters results f ↔ r ∈ results ∧ foodPasses f r = true) ∧
    (∀ req, f.dietary_restrictions = some req →
      (dietaryPass f r = true ↔
        ∃ opt ∈ req, opt.value ∈ r.metadata.dietary_options.getD [])) ∧
    (f.budget_level = some .BUDGET →
      r.metadata.price_range.getD "€€" ∈ (["€", "€€", "€€€"] : List String) →
      (budgetPass f r = false ↔ r.metadata.price_range.getD "€€" = "€€€")) ∧
    (f.budget_level = some .LUXURY →
      (budgetPass f r = false ↔ r.metadata.price_range.getD "€€" = "€")) := by
  refine ⟨List.mem_filter, ?_, ?_, ?_⟩
  · intro req hreq
    rw [dietaryPass, hreq]
    simp
  · intro hb hband
    rw [budgetPass, hb]
    have hband' : r.metadata.price_range.getD "€€" = "€" ∨
        r.metadata.price_range.getD "€€" = "€€" ∨
        r.metadata.price_range.getD "€€" = "€€€" := by simpa using hband
    rcases hband' with h | h | h <;> simp [h]
  · intro hb
    rw [budgetPass, hb]
    rcases heq : r.metadata.price_range.getD "€€" == "€" with _ | _
    · simp_all
    · simp_all

/-- C7 witness: the concrete vegetarian-friendly `"€€€"` restaurant `c7Doc`
satisfies the dietary check of `c7Filters` but is rejected by its BUDGET
budget check. -/
theorem c7_witness :
    dietaryPass c7Filters c7Doc = true ∧
    budgetPass c7Filters c7Doc = false ∧
    c7Doc ∉ foodApplyFilters [c7Doc] c7Filters := by
  have h := c7_food_filter_semantics [c7Doc] c7Filters c7Doc
  refine ⟨(h.2.1 [.VEGETARIAN] rfl).mpr ⟨.VEGETARIAN, by decide, by decide⟩,
    (h.2.2.1 rfl (by decide)).mpr rfl, ?_⟩
  intro hmem
  have := (h.1.mp hmem).2
  rw [foodPasses, (h.2.2.1 rfl (by decide)).mpr rfl] at this
  simp at this

/-- C9: `load` on a missing store path returns `False` with the in-memory
store untouched (a cold start keeps serving the empty index); when the path
exists but any of the three persisted files is unreadable, `load` returns
`False` instead of raising (the model is a total function); and `load_all`
computes every category's outcome, each depending only on that category's own
directory, so one failing category never blocks another. -/
theorem c9_load_failure_tolerance (fs fs2 : Filesystem) (path : String)
    (st : FAISSVectorStore) (m : MultiSourceRetriever) :
    (fs path = none → retrieverLoad fs path st = (false, st)) ∧
    (∀ dir, fs path = some dir →
      dir.indexFile = none ∨ dir.textsFile = none ∨ dir.metadataFile = none →
      (retrieverLoad fs path st).1 = false) ∧
    (load_all fs m).attractions
      = (retrieverLoad fs (storePath .ATTRACTIONS) m.attractions).2 ∧
    (load_all fs m).food = (retrieverLoad fs (storePath .FOOD) m.food).2 ∧
    (load_all fs m).tips = (retrieverLoad fs (storePath .TIPS) m.tips).2 ∧
    (load_all fs m).itineraries
      = (retrieverLoad fs (storePath .ITINERARIES) m.itineraries).2 ∧
    (fs (storePath .FOOD) = fs2 (storePath .FOOD) →
      (load_all fs m).food = (load_all fs2 m).food) := by
  refine ⟨?_, ?_, rfl, rfl, rfl, rfl, ?_⟩
  · intro h
    rw [retrieverLoad, h]
  · intro dir hdir hbad
    rw [retrieverLoad, hdir]
    rcases hbad with h | h | h
    · simp [vsLoad, h]
    · rcases hix : dir.indexFile with _ | ix
      · simp [vsLoad, hix]
      · simp [vsLoad, hix, h]
    · rcases hix : dir.indexFile with _ | ix
      · simp [vsLoad, hix]
      · rcases hts : dir.textsFile with _ | ts
        · simp [vsLoad, hix, hts]
        · simp [vsLoad, hix, hts, h]
  · intro h
    show (retrieverLoad fs (storePath .FOOD) m.food).2
      = (retrieverLoad fs2 (storePath .FOOD) m.food).2
    rw [retrieverLoad, retrieverLoad, h]

/-- C9 witness: on the empty filesystem a load fails and keeps the fresh
store; on the all-corrupt filesystem the food load reports failure; and the
food outcome of `load_all` agrees between two filesystems that agree on the
food directory. -/
theorem c9_witness :
    retrieverLoad emptyFs "p" (freshStore 4) = (false, freshStore 4) ∧
    (retrieverLoad corruptFs (storePath .FOOD) (freshStore 4)).1 = false ∧
    (load_all emptyFs freshMulti).food = (load_all emptyFs freshMulti).food :=
  ⟨(c9_load_failure_tolerance emptyFs emptyFs "p" (freshStore 4) freshMulti).1 rfl,
   (c9_load_failure_tolerance corruptFs corruptFs (storePath .FOOD) (freshStore 4)
      freshMulti).2.1 _ rfl (Or.inl rfl),
   (c9_load_failure_tolerance emptyFs emptyFs (storePath .FOOD) (freshStore 4)
      freshMulti).2.2.2.2.2.2 rfl⟩

/-- C10: the intent-analysis node always places the `dietary_restrictions`
key in the food filter dictionary, so for a user with no dietary restrictions
it is bound to the empty list; the food filter then rejects every candidate
(the disjunctive check over an empty request set is false), and the food
retrieval node writes an empty `food_context` whatever the index holds. -/
theorem c10_empty_dietary_rejects_all (prefs : UserPreferences)
    (h : prefs.dietary_restrictions = [])
    (stores : KnowledgeSource → FAISSVectorStore) (embed : String → List ℚ)
    (results : List RetrievedDoc) (f : FoodFilters) :
    (buildFilters prefs).food.dietary_restrictions = some [] ∧
    (f.dietary_restrictions = some [] → foodApplyFilters results f = []) ∧
    parallelRetrieverNode stores embed .FOOD (analyzeIntent prefs).2 prefs
      = [("food_context", [])] := by
  refine ⟨by rw [buildFilters, h], foodApplyFilters_empty_dietary results f, ?_⟩
  rw [parallelRetrieverNode]
  have hfood : (analyzeIntent prefs).2.filters.food.dietary_restrictions
      = some [] := by
    rw [analyzeIntent, buildFilters, h]
  have htruthy : foodFiltersTruthy (analyzeIntent prefs).2.filters.food = true := by
    rw [foodFiltersTruthy, hfood]
    rfl
  rw [foodRetrieve, baseRetrieve, htruthy]
  rw [foodApplyFilters_empty_dietary _ _ hfood]
  rfl

/-- C10 witness: the theorem applied to the concrete no-restriction
preferences `c10Prefs`, empty stores and a trivial embedding. -/
theorem c10_witness :
    (buildFilters c10Prefs).food.dietary_restrictions = some [] ∧
    parallelRetrieverNode (fun _ => freshStore 4) (fun _ => [])
      .FOOD (analyzeIntent c10Prefs).2 c10Prefs = [("food_context", [])] :=
  ⟨(c10_empty_dietary_rejects_all c10Prefs rfl (fun _ => freshStore 4)
      (fun _ => []) [] {}).1,
   (c10_empty_dietary_rejects_all c10Prefs rfl (fun _ => freshStore 4)
      (fun _ => []) [] {}).2.2⟩

end TravelPlanner
